import Mathlib

/-!
Shallow embedding of the core of `sallie` (`src/sallie/tv_next.py`, v0.6.8):
the show store, the staleness policy `show_update_should`, the refresh
orchestrator `show_update` / `show_update_all`, and the window query
`check` / `check_all`.

Modelling conventions:
* UTC instants are integer seconds since the epoch (`Int`).  Python's
  `timedelta.days` is floor division of the total seconds by 86400, and
  `datetime.date()` of a UTC-aware datetime is the floor day number.
* A Python show dict with possibly-absent fields becomes a structure of
  `Option` fields; `dict.setdefault` / `dict.get(k, d)` become explicit
  `Option` operations.
* The show store (`self._shows`, an `OrderedDict`) is an association list
  preserving insertion order; item assignment replaces in place or appends.
* Exceptions that the embedded code can raise (`KeyError`) are modelled by
  `Except`.
* The abstract provider call `self._show_update(key)` is modelled by a
  function from the show key and the attempt number to an outcome; the
  successful merge follows `next_tvdb.TVNextTVDB._show_update` (replace
  `episodes`, set `accessed = now`, reset `errors = 0`).
* Logging, `time.sleep` backoff and the thread lock have no observable
  effect on the store and are omitted.
-/

namespace Sallie

/-- Seconds in a day, for `timedelta.days` / `.date()` arithmetic. -/
def secondsPerDay : Int := 86400

/-- `(later - earlier).days` in Python: floor of the elapsed seconds over a day. -/
def daysBetween (later earlier : Int) : Int :=
  Int.fdiv (later - earlier) secondsPerDay

/-- `t.date()` for a UTC instant: the floor day number. -/
def dateOf (t : Int) : Int :=
  Int.fdiv t secondsPerDay

/-- An episode record: `id`, optional `name`, optional `aired` UTC instant. -/
structure Episode where
  epId : String := ""
  name : Option String := none
  aired : Option Int := none
deriving DecidableEq, Repr

/-- A show record; every field a Python dict key that may be absent (`none`).
`episodes` is the nested season -> episode mapping, modelled as a list of
seasons (in dict insertion order), each a list of episodes in order. -/
structure ShowRec where
  active : Option Bool := none
  hiatus : Option Bool := none
  air_timezone : Option String := none
  accessed : Option Int := none
  errors : Option Int := none
  episodes : Option (List (List Episode)) := none
deriving DecidableEq, Repr

/-- The show store `self._shows`: an insertion-ordered mapping. -/
abbrev Store := List (String × ShowRec)

/-- Dict lookup `self._shows.get(key)`. -/
def lookupShow (s : Store) (k : String) : Option ShowRec :=
  match s with
  | [] => none
  | (k', v) :: rest => if k' = k then some v else lookupShow rest k

/-- Dict item assignment `self._shows[key] = v`: replace in place, or append. -/
def setShow (s : Store) (k : String) (v : ShowRec) : Store :=
  match s with
  | [] => [(k, v)]
  | (k', v') :: rest => if k' = k then (k, v) :: rest else (k', v') :: setShow rest k v

/-- `del self._shows[show]` guarded by `if show in self._shows`. -/
def removeShow (s : Store) (k : String) : Store :=
  s.filter (fun p => p.1 ≠ k)

/-- The keys of the store in insertion order (`list(self._shows)`). -/
def storeKeys (s : Store) : List String :=
  s.map Prod.fst

/-- A kernel-evaluable decision procedure for `String` order (the builtin
one iterates over byte positions by well-founded recursion and does not
reduce), so that sorting show keys stays computable in proofs. -/
instance (priority := 2000) decidableLeString :
    DecidableRel ((· ≤ ·) : String → String → Prop) :=
  fun a b => decidable_of_iff (¬ b.toList < a.toList) (not_congr String.lt_iff_toList_lt).symm

/-- `sorted(shows)`: the keys in ascending lexicographic order. -/
def sortKeys (s : Store) : List String :=
  (storeKeys s).insertionSort (· ≤ ·)

/-- Exceptions of the embedded fragment. -/
inductive PyErr where
  | keyError (k : String)
deriving DecidableEq, Repr

/-- `TVNext.show_add`: `setdefault(show, {})`, then set `air_timezone` if a
timezone was passed. -/
def show_add (s : Store) (k : String) (tz : Option String) : Store :=
  let s1 := match lookupShow s k with
    | some _ => s
    | none => s ++ [(k, ({} : ShowRec))]
  match tz with
  | some z =>
    match lookupShow s1 k with
    | some sh => setShow s1 k { sh with air_timezone := some z }
    | none => s1
  | none => s1

/-- Configuration fields of `TVNext.__init__` relevant to the claims,
with their source defaults. -/
structure Config where
  access_interval : Int := 7
  access_interval_hiatus : Option Int := none
  access_interval_inactive : Option Int := none
  access_interval_aired : Option Int := none
  access_interval_error : Int := 10
  max_retries : Int := 3
  should_retry : Bool := true
deriving DecidableEq, Repr

/-- Python truthiness of a `None | int` interval setting
(`None` and `0` are falsy). -/
def truthyInterval : Option Int → Bool
  | none => false
  | some v => decide (v ≠ 0)

/-- The three `setdefault` calls at the top of `show_update_should`. -/
def show_apply_defaults (sh : ShowRec) : ShowRec :=
  { sh with
    active := some (sh.active.getD true)
    hiatus := some (sh.hiatus.getD false)
    episodes := some (sh.episodes.getD []) }

/-- `show_episodes_flatten` applied to an in-hand show record whose
`episodes` key is present (as inside `show_update_should`). -/
def show_episodes_list (sh : ShowRec) : List Episode :=
  (sh.episodes.getD []).flatten

/-- `TVNext.show_episodes_flatten(key)`: dict lookups raise `KeyError` when
the show or its `episodes` key is missing. -/
def show_episodes_flatten (s : Store) (k : String) : Except PyErr (List Episode) :=
  match lookupShow s k with
  | none => .error (.keyError k)
  | some sh =>
    match sh.episodes with
    | none => .error (.keyError "episodes")
    | some eps => .ok eps.flatten

/-- The newest-first episode scan of `show_update_should` (the
`for ep in episodes[::-1]` loop): skip episodes without an air date or not
yet aired; return `true` on the first past episode whose
`(aired - accessed).days` reaches the threshold, and stop (`break`,
yielding `false`) at the first past episode below it.
A naive `aired` is localized to UTC, which leaves the modelled instant
unchanged. -/
def airedScan (now accessed thr : Int) : List Episode → Bool
  | [] => false
  | ep :: rest =>
    match ep.aired with
    | none => airedScan now accessed thr rest
    | some aired =>
      if now < aired then airedScan now accessed thr rest
      else if thr ≤ daysBetween aired accessed then true
      else false

/-- The non-mutating tail of `show_update_should` (from `if force_check:`
on), for a record `sh` that already has its defaults applied: the
`force` short-circuit, the recently-aired scan, and the
inactive / hiatus / generic interval checks. -/
def should_rest (cfg : Config) (now accessed : Int) (sh : ShowRec) (force : Bool) : Bool :=
  if force then true
  else
    let airedHit := match cfg.access_interval_aired with
      | some thr => airedScan now accessed thr (show_episodes_list sh).reverse
      | none => false
    if airedHit then true
    else if sh.active.getD true = false then
      if truthyInterval cfg.access_interval_inactive then
        decide (daysBetween now accessed ≥ cfg.access_interval_inactive.getD 0)
      else false
    else if sh.hiatus.getD false = true then
      if truthyInterval cfg.access_interval_hiatus then
        decide (daysBetween now accessed ≥ cfg.access_interval_hiatus.getD 0)
      else false
    else decide (daysBetween now accessed ≥ cfg.access_interval)

/-- `TVNext.show_update_should` on the record itself: the returned decision
together with the mutated record (the `setdefault`s and the error cap are
in-place dict mutations; no branch after the error cap mutates). -/
def show_update_should_show (cfg : Config) (now : Int) (sh0 : ShowRec)
    (force : Bool) : Bool × ShowRec :=
  let sh := show_apply_defaults sh0
  match sh.accessed with
  | none => (true, sh)
  | some accessed =>
    if sh.errors.getD 0 ≥ 3 ∧
        (daysBetween now accessed ≥ cfg.access_interval_error ∨ force = true) then
      (true, { sh with errors := some (max 1 (cfg.max_retries - 1)) })
    else (should_rest cfg now accessed sh force, sh)

/-- `TVNext.show_update_should(key, force)` at the store level:
`self._shows[key]` raises `KeyError` for an unknown key. -/
def show_update_should (cfg : Config) (now : Int) (s : Store) (k : String)
    (force : Bool) : Except PyErr (Bool × Store) :=
  match lookupShow s k with
  | none => .error (.keyError k)
  | some sh =>
    let r := show_update_should_show cfg now sh force
    .ok (r.1, setShow s k r.2)

/-- Outcome of one provider call `self._show_update(key)`:
a successful fetch-and-merge (carrying the new episode table and the
returned `changed` flag), the `TVNextNotFoundException` signal, a
connection-reset failure, or any other failure. -/
inductive FetchResult where
  | ok (episodes : List (List Episode)) (changed : Bool)
  | notFound
  | failConnReset
  | failOther
deriving Repr

/-- The metadata provider, as a function of the show key and the attempt
number within one `show_update` call. -/
abbrev Provider := String → Nat → FetchResult

/-- The successful merge performed by `next_tvdb.TVNextTVDB._show_update`:
replace `episodes`, set `accessed = now`, reset `errors = 0`. -/
def merge_fetched (now : Int) (eps : List (List Episode)) (sh : ShowRec) : ShowRec :=
  { sh with episodes := some eps, accessed := some now, errors := some 0 }

/-- The retry loop of `TVNext.show_update`
(`while retry and self.shows[key]['errors'] < self._max_retries`),
returning the mutated record, the final `changed` flag and the number of
provider calls made.  The backoff `time.sleep` has no store effect.

The recursion is driven by an explicit `fuel` so that the definition is
structural (and hence evaluable); every continuing iteration increments
`errors`, so the loop exits by its own guard after at most
`(max_retries - errors).toNat` iterations, and the `fuel = 0` base case
(which returns the same loop-exit result as a failed guard) is never
reached for the fuel `show_update` supplies (`update_loop_fuel_enough`). -/
def update_loop (cfg : Config) (now : Int) (provider : Provider) (k : String) :
    Nat → Nat → ShowRec → Bool → Nat → ShowRec × Bool × Nat
  | 0, _, sh, changed, calls => (sh, changed, calls)
  | fuel + 1, attempt, sh, changed, calls =>
    if sh.errors.getD 0 < cfg.max_retries then
      match provider k attempt with
      | .ok eps c => (merge_fetched now eps sh, c, calls + 1)
      | .notFound =>
        ({ sh with errors := some cfg.max_retries, accessed := some now }, true, calls + 1)
      | .failConnReset =>
        if cfg.should_retry then
          update_loop cfg now provider k fuel (attempt + 1)
            { sh with errors := some (sh.errors.getD 0 + 1) } true (calls + 1)
        else ({ sh with errors := some (sh.errors.getD 0 + 1) }, true, calls + 1)
      | .failOther =>
        if cfg.should_retry then
          update_loop cfg now provider k fuel (attempt + 1)
            { sh with errors := some (sh.errors.getD 0 + 1) } true (calls + 1)
        else ({ sh with errors := some (sh.errors.getD 0 + 1) }, true, calls + 1)
    else (sh, changed, calls)

/-- Fuel that is always sufficient for `update_loop` to exit through its
own guard. -/
def update_fuel (cfg : Config) (sh : ShowRec) : Nat :=
  (cfg.max_retries - sh.errors.getD 0).toNat + 1

/-- Result of `TVNext.show_update`: the returned `changed` flag, the store
afterwards, the full-store snapshots saved by `show_save_all`, and the
number of provider calls. -/
structure UpdateResult where
  changed : Bool
  store : Store
  saves : List Store
  calls : Nat
deriving DecidableEq, Repr

/-- `TVNext.show_update(key, force_check, auto_save)`. -/
def show_update (cfg : Config) (now : Int) (provider : Provider) (s : Store)
    (k : String) (force auto_save : Bool) : Except PyErr UpdateResult :=
  match show_update_should cfg now s k force with
  | .error e => .error e
  | .ok (should, s1) =>
    if should = false then .ok ⟨false, s1, [], 0⟩
    else
      match lookupShow s1 k with
      | none => .error (.keyError k)
      | some sh0 =>
        let sh1 := { sh0 with errors := some (sh0.errors.getD 0) }
        let r := update_loop cfg now provider k (update_fuel cfg sh1) 0 sh1 false 0
        let s2 := setShow s1 k r.1
        .ok ⟨r.2.1, s2, if auto_save = true ∧ r.2.1 = true then [s2] else [], r.2.2⟩

/-- Result of a batch operation over the store. -/
structure BatchResult where
  store : Store
  changed : Bool
  saves : List Store
  calls : Nat
deriving DecidableEq, Repr

/-- The loop body of `TVNext.show_update_all`, with the trailing
`if not auto_save and changed: self.show_save_all()`. -/
def update_all_go (cfg : Config) (now : Int) (provider : Provider)
    (force auto_save : Bool) :
    List String → Store → Bool → List Store → Nat → Except PyErr BatchResult
  | [], s, changed, saves, calls =>
    .ok ⟨s, changed, if auto_save = false ∧ changed = true then saves ++ [s] else saves, calls⟩
  | k :: ks, s, changed, saves, calls =>
    match show_update cfg now provider s k force auto_save with
    | .error e => .error e
    | .ok r =>
      update_all_go cfg now provider force auto_save ks r.store
        (r.changed || changed) (saves ++ r.saves) (calls + r.calls)

/-- `TVNext.show_update_all(force_check, auto_save)`. -/
def show_update_all (cfg : Config) (now : Int) (provider : Provider) (s : Store)
    (force auto_save : Bool) : Except PyErr BatchResult :=
  update_all_go cfg now provider force auto_save (sortKeys s) s false [] 0

/-- An independent sequential run of `show_update` over a key list,
recording each call's `changed` flag, its saves and its provider calls;
used to characterize `show_update_all`. -/
def update_seq (cfg : Config) (now : Int) (provider : Provider)
    (force auto_save : Bool) :
    List String → Store → Except PyErr (Store × List Bool × List Store × Nat)
  | [], s => .ok (s, [], [], 0)
  | k :: ks, s =>
    match show_update cfg now provider s k force auto_save with
    | .error e => .error e
    | .ok r =>
      match update_seq cfg now provider force auto_save ks r.store with
      | .error e => .error e
      | .ok (s', cl, sv, c) => .ok (s', r.changed :: cl, r.saves ++ sv, r.calls + c)

/-- A `delta_min` / `delta_max` argument of `TVNext.check`: an `int`
(days), an explicit `datetime.date`, a `timedelta` (whose `.days` component
is all that date arithmetic uses), or `None`. -/
inductive DeltaArg where
  | int (n : Int)
  | date (d : Int)
  | dur (days : Int)
  | nul
deriving DecidableEq, Repr

/-- The delta normalization of `TVNext.check`: ints become day deltas,
`None` becomes the zero delta, a date is taken as-is, and a delta is
subtracted from (for `delta_min`) or added to (for `delta_max`) today. -/
def normalizeDelta (nowDate : Int) (isMin : Bool) : DeltaArg → Int
  | .date d => d
  | .int n => if isMin then nowDate - n else nowDate + n
  | .dur n => if isMin then nowDate - n else nowDate + n
  | .nul => if isMin then nowDate - 0 else nowDate + 0

/-- The collection loop of `TVNext.check` over the reversed flat episode
list: skip episodes without `aired`, skip air dates outside
`[day_min, day_max]`, and pair each hit with the show key (`ep.copy()` of
an immutable value is the value itself). -/
def check_collect (k : String) (dayMin dayMax : Int) :
    List Episode → List (String × Episode)
  | [] => []
  | ep :: rest =>
    match ep.aired with
    | none => check_collect k dayMin dayMax rest
    | some a =>
      if dateOf a > dayMax ∨ dateOf a < dayMin then check_collect k dayMin dayMax rest
      else (k, ep) :: check_collect k dayMin dayMax rest

/-- Result of `TVNext.check` / `TVNext.check_all`. -/
structure CheckResult where
  results : List (String × Episode)
  store : Store
  saves : List Store
  calls : Nat
deriving DecidableEq, Repr

/-- `TVNext.check(key, force_check, delta_min, delta_max, auto_save)`. -/
def check (cfg : Config) (now : Int) (provider : Provider) (s : Store)
    (k : String) (force : Bool) (dmin dmax : DeltaArg) (auto_save : Bool) :
    Except PyErr CheckResult :=
  let nowDate := dateOf now
  let dayMin0 := normalizeDelta nowDate true dmin
  let dayMax0 := normalizeDelta nowDate false dmax
  let dayMin := if dayMin0 > dayMax0 then dayMax0 else dayMin0
  let dayMax := if dayMin0 > dayMax0 then dayMin0 else dayMax0
  let s0 := if (lookupShow s k).isNone then show_add s k none else s
  match show_update cfg now provider s0 k force auto_save with
  | .error e => .error e
  | .ok r =>
    match lookupShow r.store k with
    | none => .error (.keyError k)
    | some sh =>
      match sh.episodes with
      | none => .error (.keyError "episodes")
      | some eps =>
        .ok ⟨check_collect k dayMin dayMax eps.flatten.reverse, r.store, r.saves, r.calls⟩

/-- The loop of `TVNext.check_all` over explicit keys. -/
def check_all_go (cfg : Config) (now : Int) (provider : Provider)
    (dmin dmax : DeltaArg) (force auto_save : Bool) :
    List String → Store → List (String × Episode) → List Store → Nat →
    Except PyErr CheckResult
  | [], s, results, saves, calls => .ok ⟨results, s, saves, calls⟩
  | k :: ks, s, results, saves, calls =>
    match check cfg now provider s k force dmin dmax auto_save with
    | .error e => .error e
    | .ok r =>
      check_all_go cfg now provider dmin dmax force auto_save ks r.store
        (results ++ r.results) (saves ++ r.saves) (calls + r.calls)

/-- `TVNext.check_all(keys, delta_min, delta_max, force_check, auto_save)`:
with `keys = None`, run a batch update over the sorted keys first and then
check each key with `force_check` and `auto_save` suppressed. -/
def check_all (cfg : Config) (now : Int) (provider : Provider) (s : Store)
    (keys : Option (List String)) (dmin dmax : DeltaArg)
    (force auto_save : Bool) : Except PyErr CheckResult :=
  match keys with
  | some ks => check_all_go cfg now provider dmin dmax force auto_save ks s [] [] 0
  | none =>
    let ks := sortKeys s
    match show_update_all cfg now provider s force auto_save with
    | .error e => .error e
    | .ok b =>
      match check_all_go cfg now provider dmin dmax false false ks b.store [] [] 0 with
      | .error e => .error e
      | .ok r => .ok ⟨r.results, r.store, b.saves ++ r.saves, b.calls + r.calls⟩

/-! ### Basic lemmas about the store and the staleness policy -/

theorem lookup_setShow_self (s : Store) (k : String) (v : ShowRec) :
    lookupShow (setShow s k v) k = some v := by
  induction s with
  | nil => simp [setShow, lookupShow]
  | cons p rest ih =>
    obtain ⟨k', v'⟩ := p
    by_cases h : k' = k <;> simp [setShow, lookupShow, h, ih]

theorem lookup_setShow_ne (s : Store) (k k' : String) (v : ShowRec) (h : k' ≠ k) :
    lookupShow (setShow s k v) k' = lookupShow s k' := by
  induction s with
  | nil => simp [setShow, lookupShow, Ne.symm h]
  | cons p rest ih =>
    obtain ⟨k'', v''⟩ := p
    simp only [setShow]
    by_cases h2 : k'' = k
    · subst h2
      simp [lookupShow, Ne.symm h]
    · simp [lookupShow, h2, ih]

theorem show_apply_defaults_accessed (sh : ShowRec) :
    (show_apply_defaults sh).accessed = sh.accessed := rfl

theorem show_apply_defaults_errors (sh : ShowRec) :
    (show_apply_defaults sh).errors = sh.errors := rfl

/-- When the policy decides `false`, the record mutation is exactly the
materialization of the `active`/`hiatus`/`episodes` defaults. -/
theorem should_false_defaults (cfg : Config) (now : Int) (sh : ShowRec) (force : Bool)
    (h : (show_update_should_show cfg now sh force).1 = false) :
    (show_update_should_show cfg now sh force).2 = show_apply_defaults sh := by
  revert h
  unfold show_update_should_show
  dsimp only
  split
  · intro h; simp at h
  · split
    · intro h; simp at h
    · intro _; rfl

/-- The policy either leaves `errors` unchanged or caps it to
`max 1 (max_retries - 1)`. -/
theorem should_errors (cfg : Config) (now : Int) (sh : ShowRec) (force : Bool) :
    (show_update_should_show cfg now sh force).2.errors = sh.errors ∨
    (show_update_should_show cfg now sh force).2.errors =
      some (max 1 (cfg.max_retries - 1)) := by
  unfold show_update_should_show
  dsimp only
  split
  · left; rfl
  · split
    · right; rfl
    · left; rfl

/-- Episodes that the newest-first scan merely skips (no air date, or not
yet aired) do not affect its outcome. -/
theorem airedScan_skip_prefix (now a thr : Int) (l1 rest : List Episode)
    (hskip : ∀ x ∈ l1, ∀ t, x.aired = some t → now < t) :
    airedScan now a thr (l1 ++ rest) = airedScan now a thr rest := by
  induction l1 with
  | nil => rfl
  | cons x l1' ih =>
    have hx := hskip x (by simp)
    have ih' := ih (fun y hy t ht => hskip y (by simp [hy]) t ht)
    cases hax : x.aired with
    | none => simpa [airedScan, hax] using ih'
    | some t =>
      have : now < t := hx t hax
      simpa [airedScan, hax, this] using ih'

/-- The scan stops at the first past-aired episode below the threshold:
anything after it is never consulted. -/
theorem airedScan_stop_blocker (now a thr : Int) (l1 l2 : List Episode) (b : Episode)
    (t : Int) (hb : b.aired = some t) (hpast : ¬ now < t) (hlow : daysBetween t a < thr) :
    airedScan now a thr (l1 ++ b :: l2) = airedScan now a thr (l1 ++ [b]) := by
  induction l1 with
  | nil => simp [airedScan, hb, hpast, not_le.mpr hlow]
  | cons x l1' ih =>
    cases hax : x.aired with
    | none => simpa [airedScan, hax] using ih
    | some t' =>
      by_cases hfut : now < t'
      · simpa [airedScan, hax, hfut] using ih
      · by_cases hhit : thr ≤ daysBetween t' a <;>
          simp [airedScan, hax, hfut, hhit]

/-! ### The claims -/

/-- C1: for a show accessed before with `errors >= 3`, if the whole-day
elapsed time since `accessed` reaches the error-retry interval or `force`
is set, `show_update_should` returns `true` and leaves the record's
`errors` field equal to `max(1, max_retries - 1)`. -/
theorem errorRetry_caps_errors (cfg : Config) (now : Int) (sh : ShowRec)
    (force : Bool) (a : Int)
    (hacc : sh.accessed = some a)
    (herr : sh.errors.getD 0 ≥ 3)
    (hdue : daysBetween now a ≥ cfg.access_interval_error ∨ force = true) :
    (show_update_should_show cfg now sh force).1 = true ∧
    (show_update_should_show cfg now sh force).2.errors =
      some (max 1 (cfg.max_retries - 1)) := by
  have hacc' : (show_apply_defaults sh).accessed = some a := by
    simpa [show_apply_defaults] using hacc
  have herr' : (show_apply_defaults sh).errors.getD 0 ≥ 3 := by
    simpa [show_apply_defaults] using herr
  unfold show_update_should_show
  dsimp only
  simp only [hacc']
  rw [if_pos ⟨herr', hdue⟩]
  exact ⟨rfl, rfl⟩

theorem errorRetry_caps_errors_witness :
    (({ accessed := some 0, errors := some 3 } : ShowRec).accessed = some 0 ∧
      ({ accessed := some 0, errors := some 3 } : ShowRec).errors.getD 0 ≥ 3 ∧
      daysBetween (20 * 86400) 0 ≥ ({} : Config).access_interval_error) ∧
    (show_update_should_show {} (20 * 86400)
        { accessed := some 0, errors := some 3 } false).1 = true ∧
    (show_update_should_show {} (20 * 86400)
        { accessed := some 0, errors := some 3 } false).2.errors =
      some (max 1 (({} : Config).max_retries - 1)) :=
  ⟨⟨rfl, by decide, by decide⟩,
    errorRetry_caps_errors {} (20 * 86400) { accessed := some 0, errors := some 3 }
      false 0 rfl (by decide) (Or.inl (by decide))⟩

/-- C2: with the recently-aired interval configured, the show accessed and
`errors` below 3 and `force` off, the newest-first scan decides the policy:
if every episode before `q` in the reversed flat list is skipped (no air
date or not yet aired) and `q` has aired at least the threshold (in whole
days) after `accessed`, the policy returns `true`; and the scan's outcome
on a list is unchanged when everything after the first past-aired
below-threshold episode is dropped (older episodes are never consulted). -/
theorem airedScan_decides (cfg : Config) (now : Int) (sh : ShowRec) (a thr : Int)
    (l1 l2 : List Episode) (q : Episode)
    (hcfg : cfg.access_interval_aired = some thr)
    (hacc : sh.accessed = some a)
    (herr : sh.errors.getD 0 < 3) :
    ((show_episodes_list (show_apply_defaults sh)).reverse = l1 ++ q :: l2 →
      (∀ x ∈ l1, ∀ t, x.aired = some t → now < t) →
      (∃ t, q.aired = some t ∧ ¬ now < t ∧ daysBetween t a ≥ thr) →
      (show_update_should_show cfg now sh false).1 = true) ∧
    (∀ (b : Episode) (l2' : List Episode) (t : Int),
      b.aired = some t → ¬ now < t → daysBetween t a < thr →
      airedScan now a thr (l1 ++ b :: l2') = airedScan now a thr (l1 ++ [b])) := by
  constructor
  · intro hrev hskip ⟨t, hqa, hqpast, hqdays⟩
    have hacc' : (show_apply_defaults sh).accessed = some a := by
      simpa [show_apply_defaults] using hacc
    have herr' : ¬ ((show_apply_defaults sh).errors.getD 0 ≥ 3 ∧
        (daysBetween now a ≥ cfg.access_interval_error ∨ false = true)) := by
      simp only [show_apply_defaults]
      intro hc
      exact absurd hc.1 (not_le.mpr herr)
    have hscan : airedScan now a thr
        ((show_episodes_list (show_apply_defaults sh)).reverse) = true := by
      rw [hrev, airedScan_skip_prefix now a thr l1 (q :: l2) hskip]
      simp [airedScan, hqa, hqpast, hqdays]
    unfold show_update_should_show
    dsimp only
    simp only [hacc']
    rw [if_neg herr']
    simp [should_rest, hcfg, hscan]
  · intro b l2' t hb hpast hlow
    exact airedScan_stop_blocker now a thr l1 l2' b t hb hpast hlow

theorem airedScan_decides_witness :
    (({ access_interval_aired := some 2 } : Config).access_interval_aired = some 2 ∧
      (show_episodes_list (show_apply_defaults
        { accessed := some 0,
          episodes := some [[{ epId := "01x01", aired := some 86400 },
                             { epId := "01x02", aired := some (5 * 86400) }]] })).reverse =
        [] ++ { epId := "01x02", aired := some (5 * 86400) } ::
          [{ epId := "01x01", aired := some 86400 }]) ∧
    (show_update_should_show { access_interval_aired := some 2 } (6 * 86400)
      { accessed := some 0,
        episodes := some [[{ epId := "01x01", aired := some 86400 },
                           { epId := "01x02", aired := some (5 * 86400) }]] } false).1 = true ∧
    airedScan (6 * 86400) 0 2
        ([] ++ ({ epId := "01x01", aired := some 86400 } : Episode) :: []) =
      airedScan (6 * 86400) 0 2 [{ epId := "01x01", aired := some 86400 }] :=
  ⟨⟨rfl, by decide⟩,
    (airedScan_decides { access_interval_aired := some 2 } (6 * 86400)
        { accessed := some 0,
          episodes := some [[{ epId := "01x01", aired := some 86400 },
                             { epId := "01x02", aired := some (5 * 86400) }]] }
        0 2 [] [{ epId := "01x01", aired := some 86400 }]
        { epId := "01x02", aired := some (5 * 86400) } rfl rfl (by decide)).1
      (by decide) (by simp)
      ⟨5 * 86400, rfl, by decide, by decide⟩,
    (airedScan_decides { access_interval_aired := some 2 } (6 * 86400)
        { accessed := some 0,
          episodes := some [[{ epId := "01x01", aired := some 86400 },
                             { epId := "01x02", aired := some (5 * 86400) }]] }
        0 2 [] [{ epId := "01x01", aired := some 86400 }]
        { epId := "01x02", aired := some (5 * 86400) } rfl rfl (by decide)).2
      { epId := "01x01", aired := some 86400 } [] 86400 rfl (by decide) (by decide)⟩

/-! ### Lemmas about the retry loop and `show_update` -/

theorem setShow_setShow (s : Store) (k : String) (v w : ShowRec) :
    setShow (setShow s k v) k w = setShow s k w := by
  induction s with
  | nil => simp [setShow]
  | cons p rest ih =>
    obtain ⟨k', v'⟩ := p
    by_cases h : k' = k <;> simp [setShow, h, ih]

/-- Unfolding `show_update` when the policy answers `true`. -/
theorem show_update_of_should_true (cfg : Config) (now : Int) (provider : Provider)
    (s : Store) (k : String) (force auto_save : Bool) (sh : ShowRec)
    (hsh : lookupShow s k = some sh)
    (hb : (show_update_should_show cfg now sh force).1 = true) :
    show_update cfg now provider s k force auto_save =
      (let sh2 := (show_update_should_show cfg now sh force).2
       let sh1 := { sh2 with errors := some (sh2.errors.getD 0) }
       let r := update_loop cfg now provider k (update_fuel cfg sh1) 0 sh1 false 0
       let s2 := setShow s k r.1
       Except.ok ⟨r.2.1, s2, if auto_save = true ∧ r.2.1 = true then [s2] else [], r.2.2⟩) := by
  unfold show_update show_update_should
  rw [hsh]
  dsimp only
  rw [hb]
  simp only [Bool.true_eq_false, if_false, lookup_setShow_self, setShow_setShow]

/-- Unfolding `show_update` when the policy answers `false`: a no-op apart
from the policy's own `setdefault` materialization. -/
theorem show_update_of_should_false (cfg : Config) (now : Int) (provider : Provider)
    (s : Store) (k : String) (force auto_save : Bool) (sh : ShowRec)
    (hsh : lookupShow s k = some sh)
    (hb : (show_update_should_show cfg now sh force).1 = false) :
    show_update cfg now provider s k force auto_save =
      Except.ok ⟨false, setShow s k (show_update_should_show cfg now sh force).2, [], 0⟩ := by
  unfold show_update show_update_should
  rw [hsh]
  dsimp only
  rw [hb]
  simp

/-- The final `errors` value of the retry loop, for sufficient fuel: it is
the entry value (only when the guard already fails), `0` (a successful
merge), `max_retries` (a not-found, or failures retried to exhaustion), or
entry + 1 (a single failure with retrying disabled). -/
theorem update_loop_errors (cfg : Config) (now : Int) (provider : Provider) (k : String)
    (fuel : Nat) :
    ∀ (attempt : Nat) (sh : ShowRec) (ch : Bool) (calls : Nat),
    (cfg.max_retries - sh.errors.getD 0).toNat < fuel →
    (cfg.max_retries ≤ sh.errors.getD 0 ∧
      (update_loop cfg now provider k fuel attempt sh ch calls).1.errors.getD 0 =
        sh.errors.getD 0) ∨
    (update_loop cfg now provider k fuel attempt sh ch calls).1.errors.getD 0 = 0 ∨
    (update_loop cfg now provider k fuel attempt sh ch calls).1.errors.getD 0 =
      cfg.max_retries ∨
    (cfg.should_retry = false ∧ sh.errors.getD 0 < cfg.max_retries ∧
      (update_loop cfg now provider k fuel attempt sh ch calls).1.errors.getD 0 =
        sh.errors.getD 0 + 1) := by
  induction fuel with
  | zero => intro attempt sh ch calls hfuel; omega
  | succ fuel ih =>
    intro attempt sh ch calls hfuel
    by_cases hg : sh.errors.getD 0 < cfg.max_retries
    · rw [update_loop, if_pos hg]
      cases hpr : provider k attempt with
      | ok eps c => right; left; simp [merge_fetched]
      | notFound => right; right; left; simp
      | failConnReset =>
        dsimp only
        by_cases hr : cfg.should_retry = true
        · rw [if_pos hr]
          have h2 := ih (attempt + 1) { sh with errors := some (sh.errors.getD 0 + 1) }
            true (calls + 1) (by simp; omega)
          rcases h2 with ⟨h1, h2⟩ | h2 | h2 | ⟨h1, h2, h3⟩
          · right; right; left
            simp at h1 h2
            omega
          · right; left; exact h2
          · right; right; left; exact h2
          · rw [h1] at hr; simp at hr
        · rw [if_neg hr]
          right; right; right
          refine ⟨by simpa using hr, hg, by simp⟩
      | failOther =>
        dsimp only
        by_cases hr : cfg.should_retry = true
        · rw [if_pos hr]
          have h2 := ih (attempt + 1) { sh with errors := some (sh.errors.getD 0 + 1) }
            true (calls + 1) (by simp; omega)
          rcases h2 with ⟨h1, h2⟩ | h2 | h2 | ⟨h1, h2, h3⟩
          · right; right; left
            simp at h1 h2
            omega
          · right; left; exact h2
          · right; right; left; exact h2
          · rw [h1] at hr; simp at hr
        · rw [if_neg hr]
          right; right; right
          refine ⟨by simpa using hr, hg, by simp⟩
    · rw [update_loop, if_neg hg]
      left; exact ⟨by omega, rfl⟩

theorem lookup_append_of_some (s rest : Store) (k : String) (sh : ShowRec)
    (h : lookupShow s k = some sh) : lookupShow (s ++ rest) k = some sh := by
  induction s with
  | nil => simp [lookupShow] at h
  | cons p s' ih =>
    obtain ⟨k', v'⟩ := p
    by_cases hk : k' = k
    · simpa [lookupShow, hk] using h
    · rw [lookupShow, if_neg hk] at h
      simpa [lookupShow, hk] using ih h

theorem lookup_append_of_none (s : Store) (k : String) (v : ShowRec)
    (h : lookupShow s k = none) : lookupShow (s ++ [(k, v)]) k = some v := by
  induction s with
  | nil => simp [lookupShow]
  | cons p s' ih =>
    obtain ⟨k', v'⟩ := p
    by_cases hk : k' = k
    · rw [lookupShow, if_pos hk] at h
      cases h
    · rw [lookupShow, if_neg hk] at h
      simpa [lookupShow, hk] using ih h

theorem lookup_remove_self (s : Store) (k : String) :
    lookupShow (removeShow s k) k = none := by
  induction s with
  | nil => rfl
  | cons p s' ih =>
    obtain ⟨k', v'⟩ := p
    simp only [removeShow, List.filter_cons] at ih ⊢
    by_cases hk : k' = k
    · simpa [hk] using ih
    · simp [hk, lookupShow]
      simpa using ih

/-- The loop reports `changed = true` whenever every provider attempt
fails (with a non-not-found error) and at least one attempt occurs. -/
theorem update_loop_all_fail_changed (cfg : Config) (now : Int) (provider : Provider)
    (k : String)
    (hf : ∀ n, provider k n = .failOther ∨ provider k n = .failConnReset) :
    ∀ (fuel attempt : Nat) (sh : ShowRec) (ch : Bool) (calls : Nat),
    (ch = true ∨ (sh.errors.getD 0 < cfg.max_retries ∧ 0 < fuel)) →
    (update_loop cfg now provider k fuel attempt sh ch calls).2.1 = true := by
  intro fuel
  induction fuel with
  | zero =>
    intro attempt sh ch calls h
    rcases h with h | ⟨_, h⟩
    · simpa [update_loop] using h
    · omega
  | succ fuel ih =>
    intro attempt sh ch calls h
    rw [update_loop]
    by_cases hg : sh.errors.getD 0 < cfg.max_retries
    · rw [if_pos hg]
      rcases hf attempt with hp | hp <;> rw [hp] <;> dsimp only
      · by_cases hr : cfg.should_retry = true
        · rw [if_pos hr]
          exact ih _ _ _ _ (Or.inl rfl)
        · rw [if_neg hr]
      · by_cases hr : cfg.should_retry = true
        · rw [if_pos hr]
          exact ih _ _ _ _ (Or.inl rfl)
        · rw [if_neg hr]
    · rw [if_neg hg]
      rcases h with h | ⟨hlt, _⟩
      · exact h
      · omega

/-- C3 counterexample: one `show_update` call (the provider failing with a
generic error) takes a record from `errors = 4` to `errors = 3` — a
decrease that is not a reset to 0 and happens without any successful
refresh, because the error-retry rule first caps `errors` to
`max(1, max_retries - 1) = 2` and the single failing attempt then raises
it to 3. -/
theorem errors_decrease_counterexample :
    show_update {} (100 * 86400) (fun _ _ => .failOther)
        [("a", { accessed := some 0, errors := some 4 })] "a" false false =
      .ok ⟨true, [("a", { active := some true, hiatus := some false,
                          accessed := some 0, errors := some 3,
                          episodes := some [] })], [], 1⟩ ∧
    ((3 : Int) < 4 ∧ (3 : Int) ≠ 0) :=
  ⟨rfl, by decide⟩

/-- C3 (amended): at the granularity of the individual refresh steps the
public operations perform, a record's `errors` value never decreases
except to `0` on a successful merge, to `max 1 (max_retries - 1)` by the
error-retry cap of the staleness rule, or to `max_retries` on the
not-found path; `show_add` preserves the `errors` of every existing
record, and `show_remove` introduces no record it did not copy from the
original store. -/
theorem errors_monotone_per_refresh :
    (∀ (cfg : Config) (now : Int) (provider : Provider) (s : Store) (k : String)
      (force auto_save : Bool) (r : UpdateResult) (sh sh' : ShowRec),
      show_update cfg now provider s k force auto_save = .ok r →
      lookupShow s k = some sh → lookupShow r.store k = some sh' →
      sh.errors.getD 0 ≤ sh'.errors.getD 0 ∨ sh'.errors.getD 0 = 0 ∨
      sh'.errors.getD 0 = max 1 (cfg.max_retries - 1) ∨
      sh'.errors.getD 0 = cfg.max_retries) ∧
    (∀ (s : Store) (k : String) (tz : Option String) (k' : String) (sh : ShowRec),
      lookupShow s k' = some sh →
      ∃ sh', lookupShow (show_add s k tz) k' = some sh' ∧ sh'.errors = sh.errors) ∧
    (∀ (s : Store) (k k' : String) (sh' : ShowRec),
      lookupShow (removeShow s k) k' = some sh' → lookupShow s k' = some sh') := by
  refine ⟨?_, ?_, ?_⟩
  · intro cfg now provider s k force auto_save r sh sh' h hsh hsh'
    cases hb : (show_update_should_show cfg now sh force).1 with
    | false =>
      rw [show_update_of_should_false cfg now provider s k force auto_save sh hsh hb] at h
      injection h with h
      subst h
      dsimp only at hsh'
      rw [lookup_setShow_self] at hsh'
      injection hsh' with hsh'
      subst hsh'
      rcases should_errors cfg now sh force with he | he
      · left
        rw [he]
      · right; right; left
        rw [he]
        rfl
    | true =>
      rw [show_update_of_should_true cfg now provider s k force auto_save sh hsh hb] at h
      dsimp only at h
      injection h with h
      subst h
      dsimp only at hsh'
      rw [lookup_setShow_self] at hsh'
      injection hsh' with hsh'
      have hloop := update_loop_errors cfg now provider k
        (update_fuel cfg { (show_update_should_show cfg now sh force).2 with
          errors := some ((show_update_should_show cfg now sh force).2.errors.getD 0) })
        0 _ false 0 (Nat.lt_succ_self _)
      rw [hsh'] at hloop
      have he1 : ({ (show_update_should_show cfg now sh force).2 with
          errors := some ((show_update_should_show cfg now sh force).2.errors.getD 0) }
            : ShowRec).errors.getD 0 =
          (show_update_should_show cfg now sh force).2.errors.getD 0 := by simp
      rw [he1] at hloop
      rcases should_errors cfg now sh force with he | he <;> rw [he] at hloop
      · rcases hloop with ⟨_, h2⟩ | h2 | h2 | ⟨_, _, h2⟩
        · left; omega
        · right; left; exact h2
        · right; right; right; exact h2
        · left; omega
      · have he2 : (some (max 1 (cfg.max_retries - 1))).getD 0 =
            max 1 (cfg.max_retries - 1) := rfl
        rw [he2] at hloop
        rcases max_cases 1 (cfg.max_retries - 1) with ⟨hm1, hm2⟩ | ⟨hm1, hm2⟩ <;>
          rw [hm1] at hloop ⊢ <;>
          rcases hloop with ⟨h1, h2⟩ | h2 | h2 | ⟨_, h1, h2⟩ <;>
          omega
  · intro s k tz k' sh hsh
    unfold show_add
    cases hk : lookupShow s k with
    | some shk =>
      dsimp only
      cases tz with
      | none => exact ⟨sh, hsh, rfl⟩
      | some z =>
        rw [hk]
        dsimp only
        by_cases hkk : k' = k
        · subst hkk
          rw [hsh] at hk
          injection hk with hk
          subst hk
          exact ⟨_, lookup_setShow_self s k' _, rfl⟩
        · exact ⟨sh, by rw [lookup_setShow_ne s k k' _ hkk]; exact hsh, rfl⟩
    | none =>
      dsimp only
      have hne : k' ≠ k := by
        intro hkk
        rw [hkk, hk] at hsh
        cases hsh
      have hsh1 : lookupShow (s ++ [(k, ({} : ShowRec))]) k' = some sh :=
        lookup_append_of_some s _ k' sh hsh
      cases tz with
      | none => exact ⟨sh, hsh1, rfl⟩
      | some z =>
        rw [lookup_append_of_none s k _ hk]
        dsimp only
        exact ⟨sh, by rw [lookup_setShow_ne _ k k' _ hne]; exact hsh1, rfl⟩
  · intro s k k' sh' h
    induction s with
    | nil => simpa [removeShow] using h
    | cons p s' ih =>
      obtain ⟨k'', v''⟩ := p
      by_cases hk : k'' = k
      · subst hk
        have hfil : removeShow ((k'', v'') :: s') k'' = removeShow s' k'' := by
          simp [removeShow]
        rw [hfil] at h
        have h2 := ih h
        have hne : k'' ≠ k' := by
          intro he
          subst he
          rw [lookup_remove_self] at h
          cases h
        simp only [lookupShow]
        rw [if_neg hne]
        exact h2
      · have hfil : removeShow ((k'', v'') :: s') k = (k'', v'') :: removeShow s' k := by
          simp [removeShow, hk]
        rw [hfil] at h
        simp only [lookupShow] at h ⊢
        by_cases hkk : k'' = k'
        · rwa [if_pos hkk] at h ⊢
        · rw [if_neg hkk] at h ⊢
          exact ih h

theorem errors_monotone_per_refresh_witness :
    ({ accessed := some 0, errors := some 4 } : ShowRec).errors.getD 0 ≤
        ({ active := some true, hiatus := some false, accessed := some 0,
           errors := some 3, episodes := some [] } : ShowRec).errors.getD 0 ∨
      ({ active := some true, hiatus := some false, accessed := some 0,
         errors := some 3, episodes := some [] } : ShowRec).errors.getD 0 = 0 ∨
      ({ active := some true, hiatus := some false, accessed := some 0,
         errors := some 3, episodes := some [] } : ShowRec).errors.getD 0 =
        max 1 (({} : Config).max_retries - 1) ∨
      ({ active := some true, hiatus := some false, accessed := some 0,
         errors := some 3, episodes := some [] } : ShowRec).errors.getD 0 =
        ({} : Config).max_retries :=
  errors_monotone_per_refresh.1 {} (100 * 86400) (fun _ _ => .failOther)
    [("a", { accessed := some 0, errors := some 4 })] "a" false false
    ⟨true, [("a", { active := some true, hiatus := some false,
                    accessed := some 0, errors := some 3,
                    episodes := some [] })], [], 1⟩
    { accessed := some 0, errors := some 4 }
    { active := some true, hiatus := some false, accessed := some 0,
      errors := some 3, episodes := some [] }
    (by rfl) rfl rfl

/-- C4: when the policy judges the show due (or forced), the resulting
record still has `errors < max_retries`, and the first provider call
signals not-found, `show_update` makes exactly one provider call, sets the
record's `errors` to `max_retries` and `accessed` to now, and returns
`changed = true` (saving once when `auto_save` is set). -/
theorem notFound_exhausts (cfg : Config) (now : Int) (provider : Provider)
    (s : Store) (k : String) (force auto_save : Bool) (sh : ShowRec)
    (hsh : lookupShow s k = some sh)
    (hb : (show_update_should_show cfg now sh force).1 = true)
    (hentry : (show_update_should_show cfg now sh force).2.errors.getD 0 <
      cfg.max_retries)
    (hnf : provider k 0 = .notFound) :
    show_update cfg now provider s k force auto_save =
      .ok ⟨true,
           setShow s k { (show_update_should_show cfg now sh force).2 with
                         errors := some cfg.max_retries, accessed := some now },
           if auto_save = true then
             [setShow s k { (show_update_should_show cfg now sh force).2 with
                            errors := some cfg.max_retries, accessed := some now }]
           else [], 1⟩ := by
  rw [show_update_of_should_true cfg now provider s k force auto_save sh hsh hb]
  dsimp only
  rw [update_fuel, update_loop, if_pos (by simpa using hentry), hnf]
  simp

theorem notFound_exhausts_witness :
    show_update {} (100 * 86400) (fun _ _ => .notFound)
        [("a", { accessed := some 0, episodes := some [] })] "a" false true =
      .ok ⟨true,
           setShow [("a", { accessed := some 0, episodes := some [] })] "a"
             { (show_update_should_show {} (100 * 86400)
                 { accessed := some 0, episodes := some [] } false).2 with
               errors := some ({} : Config).max_retries,
               accessed := some (100 * 86400) },
           if true = true then
             [setShow [("a", { accessed := some 0, episodes := some [] })] "a"
               { (show_update_should_show {} (100 * 86400)
                   { accessed := some 0, episodes := some [] } false).2 with
                 errors := some ({} : Config).max_retries,
                 accessed := some (100 * 86400) }]
           else [], 1⟩ :=
  notFound_exhausts {} (100 * 86400) (fun _ _ => .notFound)
    [("a", { accessed := some 0, episodes := some [] })] "a" false true
    { accessed := some 0, episodes := some [] }
    rfl (by rfl) (by decide) rfl

/-- C7 counterexample: with the policy judging the show not due and
`force` off, `show_update` makes no provider call and no save and returns
`false`, but the store is not left unchanged: the policy's `setdefault`
calls materialize the missing `active`/`hiatus` fields on the record, so
the staleness evaluation is not effect-free. -/
theorem notDue_mutates_counterexample :
    show_update {} 0 (fun _ _ => .notFound)
        [("a", { accessed := some 0, episodes := some [] })] "a" false false =
      .ok ⟨false, [("a", { active := some true, hiatus := some false,
                           accessed := some 0, episodes := some [] })], [], 0⟩ ∧
    lookupShow [("a", { active := some true, hiatus := some false,
                        accessed := some 0, episodes := some [] })] "a" ≠
      lookupShow [("a", { accessed := some 0, episodes := some [] })] "a" :=
  ⟨rfl, by decide⟩

/-- C7 (amended): when the policy judges the show not due and `force` is
off, `show_update` returns `false` with no provider call and no save, and
the store changes only by materializing the record's
`active`/`hiatus`/`episodes` defaults — `errors`, `accessed` and
`air_timezone` are untouched and every other show is untouched. -/
theorem notDue_noop (cfg : Config) (now : Int) (provider : Provider) (s : Store)
    (k : String) (force auto_save : Bool) (sh : ShowRec)
    (hsh : lookupShow s k = some sh)
    (hb : (show_update_should_show cfg now sh force).1 = false) :
    show_update cfg now provider s k force auto_save =
      .ok ⟨false, setShow s k (show_apply_defaults sh), [], 0⟩ ∧
    (show_apply_defaults sh).errors = sh.errors ∧
    (show_apply_defaults sh).accessed = sh.accessed ∧
    (show_apply_defaults sh).air_timezone = sh.air_timezone ∧
    (∀ k', k' ≠ k →
      lookupShow (setShow s k (show_apply_defaults sh)) k' = lookupShow s k') := by
  refine ⟨?_, rfl, rfl, rfl, fun k' hk => lookup_setShow_ne s k k' _ hk⟩
  rw [show_update_of_should_false cfg now provider s k force auto_save sh hsh hb,
      should_false_defaults cfg now sh force hb]

theorem notDue_noop_witness :
    show_update {} 0 (fun _ _ => .notFound)
        [("a", { accessed := some 0, episodes := some [] })] "a" false false =
      .ok ⟨false,
           setShow [("a", { accessed := some 0, episodes := some [] })] "a"
             (show_apply_defaults { accessed := some 0, episodes := some [] }),
           [], 0⟩ ∧
    (show_apply_defaults
      ({ accessed := some 0, episodes := some [] } : ShowRec)).errors =
        ({ accessed := some 0, episodes := some [] } : ShowRec).errors ∧
    (show_apply_defaults
      ({ accessed := some 0, episodes := some [] } : ShowRec)).accessed =
        ({ accessed := some 0, episodes := some [] } : ShowRec).accessed ∧
    (show_apply_defaults
      ({ accessed := some 0, episodes := some [] } : ShowRec)).air_timezone =
        ({ accessed := some 0, episodes := some [] } : ShowRec).air_timezone ∧
    (∀ k', k' ≠ "a" →
      lookupShow (setShow [("a", { accessed := some 0, episodes := some [] })] "a"
        (show_apply_defaults { accessed := some 0, episodes := some [] })) k' =
      lookupShow [("a", { accessed := some 0, episodes := some [] })] k') :=
  notDue_noop {} 0 (fun _ _ => .notFound)
    [("a", { accessed := some 0, episodes := some [] })] "a" false false
    { accessed := some 0, episodes := some [] } rfl (by rfl)

/-- C8 (code bug): `show_update` on a key absent from the store raises
`KeyError` out of the policy's `self._shows[key]` lookup instead of
creating the record with defaults, contradicting its own docstring
"Update show (and adds it if not already present)". -/
theorem unknown_key_raises :
    show_update {} 0 (fun _ _ => .notFound) [] "Foo" false false =
      .error (.keyError "Foo") ∧
    lookupShow [] "Foo" = none :=
  ⟨rfl, rfl⟩

/-- C9: if the policy judges the show due with `errors` still below
`max_retries` (so at least one fetch is attempted) and every provider
attempt fails with an exception other than not-found, `show_update` still
returns `changed = true`, and with `auto_save` set it saves the full store
exactly once even though only the record's `errors` counter and the
default materialization changed. -/
theorem allFail_reports_changed (cfg : Config) (now : Int) (provider : Provider)
    (s : Store) (k : String) (force auto_save : Bool) (sh : ShowRec)
    (hsh : lookupShow s k = some sh)
    (hb : (show_update_should_show cfg now sh force).1 = true)
    (hentry : (show_update_should_show cfg now sh force).2.errors.getD 0 <
      cfg.max_retries)
    (hf : ∀ n, provider k n = .failOther ∨ provider k n = .failConnReset) :
    ∃ r, show_update cfg now provider s k force auto_save = .ok r ∧
      r.changed = true ∧
      r.saves = (if auto_save = true then [r.store] else []) := by
  rw [show_update_of_should_true cfg now provider s k force auto_save sh hsh hb]
  dsimp only
  have hch : (update_loop cfg now provider k
      (update_fuel cfg { (show_update_should_show cfg now sh force).2 with
        errors := some ((show_update_should_show cfg now sh force).2.errors.getD 0) })
      0 { (show_update_should_show cfg now sh force).2 with
        errors := some ((show_update_should_show cfg now sh force).2.errors.getD 0) }
      false 0).2.1 = true :=
    update_loop_all_fail_changed cfg now provider k hf _ _ _ _ _
      (Or.inr ⟨by simpa using hentry, Nat.succ_pos _⟩)
  refine ⟨_, rfl, hch, ?_⟩
  rw [hch]
  simp

theorem allFail_reports_changed_witness :
    ∃ r, show_update {} (100 * 86400) (fun _ _ => .failOther)
        [("a", { accessed := some 0, episodes := some [] })] "a" false true = .ok r ∧
      r.changed = true ∧
      r.saves = (if true = true then [r.store] else []) :=
  allFail_reports_changed {} (100 * 86400) (fun _ _ => .failOther)
    [("a", { accessed := some 0, episodes := some [] })] "a" false true
    { accessed := some 0, episodes := some [] }
    rfl (by rfl) (by decide) (fun n => Or.inl rfl)

/-- C10: `show_episodes_flatten` raises `KeyError` for every show record
lacking the `episodes` field — in particular for a show just added via
`show_add` and never refreshed — and returns the flat episode list only
when `episodes` is present. -/
theorem flatten_raises_without_episodes :
    (∀ (s : Store) (k : String) (sh : ShowRec),
      lookupShow s k = some sh → sh.episodes = none →
      show_episodes_flatten s k = .error (.keyError "episodes")) ∧
    (∀ (s : Store) (k : String) (tz : Option String),
      lookupShow s k = none →
      show_episodes_flatten (show_add s k tz) k = .error (.keyError "episodes")) ∧
    (∀ (s : Store) (k : String) (sh : ShowRec) (eps : List (List Episode)),
      lookupShow s k = some sh → sh.episodes = some eps →
      show_episodes_flatten s k = .ok eps.flatten) := by
  refine ⟨?_, ?_, ?_⟩
  · intro s k sh hsh heps
    simp [show_episodes_flatten, hsh, heps]
  · intro s k tz hnone
    unfold show_add
    rw [hnone]
    dsimp only
    cases tz with
    | none =>
      have h1 := lookup_append_of_none s k ({} : ShowRec) hnone
      simp [show_episodes_flatten, h1]
    | some z =>
      have h1 := lookup_append_of_none s k ({} : ShowRec) hnone
      rw [h1]
      dsimp only
      have h2 := lookup_setShow_self (s ++ [(k, ({} : ShowRec))]) k
        { ({} : ShowRec) with air_timezone := some z }
      simp [show_episodes_flatten, h2]
  · intro s k sh eps hsh heps
    simp [show_episodes_flatten, hsh, heps]

theorem flatten_raises_without_episodes_witness :
    show_episodes_flatten
        [("a", { accessed := some 0 }), ("b", { episodes := some [[{ epId := "01x01" }]] })]
        "a" = .error (.keyError "episodes") ∧
    show_episodes_flatten (show_add [] "new" (some "US/Pacific")) "new" =
      .error (.keyError "episodes") ∧
    show_episodes_flatten
        [("a", { accessed := some 0 }), ("b", { episodes := some [[{ epId := "01x01" }]] })]
        "b" = .ok [{ epId := "01x01" }] :=
  ⟨flatten_raises_without_episodes.1
      [("a", { accessed := some 0 }), ("b", { episodes := some [[{ epId := "01x01" }]] })]
      "a" { accessed := some 0 } rfl rfl,
    flatten_raises_without_episodes.2.1 [] "new" (some "US/Pacific") rfl,
    flatten_raises_without_episodes.2.2
      [("a", { accessed := some 0 }), ("b", { episodes := some [[{ epId := "01x01" }]] })]
      "b" { episodes := some [[{ epId := "01x01" }]] } [[{ epId := "01x01" }]] rfl rfl⟩

theorem check_collect_eq (k : String) (dayMin dayMax : Int) (l : List Episode) :
    check_collect k dayMin dayMax l =
      (l.filter (fun ep =>
        match ep.aired with
        | none => false
        | some a => decide (dayMin ≤ dateOf a ∧ dateOf a ≤ dayMax))).map
        (fun ep => (k, ep)) := by
  induction l with
  | nil => rfl
  | cons ep rest ih =>
    cases hae : ep.aired with
    | none => simp [check_collect, List.filter_cons, hae, ih]
    | some a =>
      by_cases hin : dateOf a > dayMax ∨ dateOf a < dayMin
      · have hno : ¬ (dayMin ≤ dateOf a ∧ dateOf a ≤ dayMax) := by omega
        simp [check_collect, List.filter_cons, hae, hin, hno, ih]
      · have hyes : dayMin ≤ dateOf a ∧ dateOf a ≤ dayMax := by omega
        simp [check_collect, List.filter_cons, hae, hin, hyes, ih]

theorem if_swap_min (a b : Int) : (if a > b then b else a) = min a b := by
  by_cases h : a > b
  · rw [if_pos h, min_eq_right (le_of_lt h)]
  · rw [if_neg h, min_eq_left (not_lt.mp h)]

theorem if_swap_max (a b : Int) : (if a > b then a else b) = max a b := by
  by_cases h : a > b
  · rw [if_pos h, max_eq_left (le_of_lt h)]
  · rw [if_neg h, max_eq_right (not_lt.mp h)]

/-- C5: `check` normalizes the two deltas to absolute dates (swapping them
when out of order), refreshes the (possibly freshly added) show, and
returns exactly one `(key, episode)` pair for each stored episode whose
`aired` date lies in the inclusive window, skipping episodes without
`aired`, in newest-first (reversed flatten) order; an episode value is its
own copy. -/
theorem check_window (cfg : Config) (now : Int) (provider : Provider) (s : Store)
    (k : String) (force : Bool) (dmin dmax : DeltaArg) (auto_save : Bool)
    (r : UpdateResult) (sh : ShowRec) (eps : List (List Episode))
    (hupd : show_update cfg now provider
        (if (lookupShow s k).isNone = true then show_add s k none else s)
        k force auto_save = .ok r)
    (hsh : lookupShow r.store k = some sh)
    (heps : sh.episodes = some eps) :
    check cfg now provider s k force dmin dmax auto_save =
      .ok ⟨(eps.flatten.reverse.filter (fun ep =>
              match ep.aired with
              | none => false
              | some a =>
                decide (min (normalizeDelta (dateOf now) true dmin)
                      (normalizeDelta (dateOf now) false dmax) ≤ dateOf a ∧
                    dateOf a ≤ max (normalizeDelta (dateOf now) true dmin)
                      (normalizeDelta (dateOf now) false dmax)))).map
              (fun ep => (k, ep)),
            r.store, r.saves, r.calls⟩ := by
  unfold check
  dsimp only
  rw [hupd]
  dsimp only
  rw [hsh]
  dsimp only
  rw [heps]
  dsimp only
  rw [check_collect_eq, if_swap_min, if_swap_max]

theorem check_window_witness :
    check {} (10 * 86400 + 3600)
        (fun _ _ => .ok [[{ epId := "01x01", aired := some (9 * 86400) },
                          { epId := "01x02", aired := some (10 * 86400 + 7200) },
                          { epId := "01x03", aired := some (11 * 86400) }]] true)
        [] "a" true (.int 0) (.int 1) false =
      .ok ⟨[("a", { epId := "01x03", aired := some (11 * 86400) }),
            ("a", { epId := "01x02", aired := some (10 * 86400 + 7200) })],
           [("a", { active := some true, hiatus := some false,
                    accessed := some (10 * 86400 + 3600), errors := some 0,
                    episodes := some [[{ epId := "01x01", aired := some (9 * 86400) },
                                       { epId := "01x02", aired := some (10 * 86400 + 7200) },
                                       { epId := "01x03", aired := some (11 * 86400) }]] })],
           [], 1⟩ := by
  have h := check_window {} (10 * 86400 + 3600)
    (fun _ _ => .ok [[{ epId := "01x01", aired := some (9 * 86400) },
                      { epId := "01x02", aired := some (10 * 86400 + 7200) },
                      { epId := "01x03", aired := some (11 * 86400) }]] true)
    [] "a" true (.int 0) (.int 1) false
    ⟨true,
     [("a", { active := some true, hiatus := some false,
              accessed := some (10 * 86400 + 3600), errors := some 0,
              episodes := some [[{ epId := "01x01", aired := some (9 * 86400) },
                                 { epId := "01x02", aired := some (10 * 86400 + 7200) },
                                 { epId := "01x03", aired := some (11 * 86400) }]] })],
     [], 1⟩
    { active := some true, hiatus := some false,
      accessed := some (10 * 86400 + 3600), errors := some 0,
      episodes := some [[{ epId := "01x01", aired := some (9 * 86400) },
                         { epId := "01x02", aired := some (10 * 86400 + 7200) },
                         { epId := "01x03", aired := some (11 * 86400) }]] }
    [[{ epId := "01x01", aired := some (9 * 86400) },
      { epId := "01x02", aired := some (10 * 86400 + 7200) },
      { epId := "01x03", aired := some (11 * 86400) }]]
    (by rfl) rfl rfl
  rw [h]
  rfl

theorem update_all_go_spec (cfg : Config) (now : Int) (provider : Provider)
    (force auto_save : Bool) :
    ∀ (ks : List String) (s : Store) (changed : Bool) (saves : List Store)
      (calls : Nat) (s' : Store) (cl : List Bool) (sv : List Store) (c : Nat),
    update_seq cfg now provider force auto_save ks s = .ok (s', cl, sv, c) →
    update_all_go cfg now provider force auto_save ks s changed saves calls =
      .ok ⟨s', (cl.any id || changed),
           saves ++ sv ++ (if auto_save = false ∧ (cl.any id || changed) = true
                           then [s'] else []),
           calls + c⟩ := by
  intro ks
  induction ks with
  | nil =>
    intro s changed saves calls s' cl sv c h
    simp only [update_seq, Except.ok.injEq, Prod.mk.injEq] at h
    obtain ⟨rfl, rfl, rfl, rfl⟩ := h
    by_cases hc : auto_save = false ∧ changed = true <;>
      simp [update_all_go, hc]
  | cons key ks ih =>
    intro s changed saves calls s' cl sv c h
    simp only [update_seq] at h
    cases hu : show_update cfg now provider s key force auto_save with
    | error e =>
      rw [hu] at h
      cases h
    | ok r =>
      rw [hu] at h
      dsimp only at h
      cases hs : update_seq cfg now provider force auto_save ks r.store with
      | error e =>
        rw [hs] at h
        cases h
      | ok t =>
        obtain ⟨s2, cl2, sv2, c2⟩ := t
        rw [hs] at h
        dsimp only at h
        simp only [Except.ok.injEq, Prod.mk.injEq] at h
        obtain ⟨rfl, rfl, rfl, rfl⟩ := h
        simp only [update_all_go]
        rw [hu]
        dsimp only
        rw [ih r.store (r.changed || changed) (saves ++ r.saves) (calls + r.calls)
          _ _ _ _ hs]
        have hb : (cl2.any id || (r.changed || changed)) =
            ((r.changed :: cl2).any id || changed) := by
          simp [List.any_cons, Bool.or_assoc, Bool.or_comm, Bool.or_left_comm]
        rw [hb]
        simp [List.append_assoc, Nat.add_assoc]

/-- C6: `show_update_all` runs `show_update` once per show key, in
ascending lexicographic key order (the sorted key list is sorted and is a
permutation of the store's keys), or-aggregates the per-show `changed`
results, and performs exactly one additional full-store save at the end
iff `auto_save` is false and some show reported a change. -/
theorem update_all_spec (cfg : Config) (now : Int) (provider : Provider) (s : Store)
    (force auto_save : Bool) (s' : Store) (cl : List Bool) (sv : List Store) (c : Nat)
    (h : update_seq cfg now provider force auto_save (sortKeys s) s =
      .ok (s', cl, sv, c)) :
    show_update_all cfg now provider s force auto_save =
      .ok ⟨s', cl.any id,
           sv ++ (if auto_save = false ∧ cl.any id = true then [s'] else []), c⟩ ∧
    List.Sorted (· ≤ ·) (sortKeys s) ∧
    (sortKeys s).Perm (storeKeys s) := by
  refine ⟨?_, List.sorted_insertionSort _ _, List.perm_insertionSort _ _⟩
  unfold show_update_all
  rw [update_all_go_spec cfg now provider force auto_save (sortKeys s) s false [] 0
    s' cl sv c h]
  simp

theorem update_all_spec_witness :
    show_update_all {} (100 * 86400) (fun _ _ => .notFound)
        [("b", { accessed := some 0, episodes := some [] }),
         ("a", { accessed := some 0, episodes := some [] })] false false =
      .ok ⟨[("b", { active := some true, hiatus := some false,
                    accessed := some (100 * 86400), errors := some 3,
                    episodes := some [] }),
            ("a", { active := some true, hiatus := some false,
                    accessed := some (100 * 86400), errors := some 3,
                    episodes := some [] })],
           [true, true].any id,
           [] ++ (if false = false ∧ [true, true].any id = true then
             [[("b", { active := some true, hiatus := some false,
                       accessed := some (100 * 86400), errors := some 3,
                       episodes := some [] }),
               ("a", { active := some true, hiatus := some false,
                       accessed := some (100 * 86400), errors := some 3,
                       episodes := some [] })]] else []), 2⟩ ∧
    List.Sorted (· ≤ ·) (sortKeys
      [("b", { accessed := some 0, episodes := some [] }),
       ("a", { accessed := some 0, episodes := some [] })]) ∧
    (sortKeys [("b", { accessed := some 0, episodes := some [] }),
               ("a", { accessed := some 0, episodes := some [] })]).Perm
      (storeKeys [("b", { accessed := some 0, episodes := some [] }),
                  ("a", { accessed := some 0, episodes := some [] })]) :=
  update_all_spec {} (100 * 86400) (fun _ _ => .notFound)
    [("b", { accessed := some 0, episodes := some [] }),
     ("a", { accessed := some 0, episodes := some [] })] false false
    [("b", { active := some true, hiatus := some false,
             accessed := some (100 * 86400), errors := some 3,
             episodes := some [] }),
     ("a", { active := some true, hiatus := some false,
             accessed := some (100 * 86400), errors := some 3,
             episodes := some [] })]
    [true, true] [] 2 (by rfl)

end Sallie
